import Mathlib

/-!
Verification of the vllm-detector-adapter repository: a shallow embedding of
the client library `examples/example_usage.py` (class `VLLMJudgeClient`) and
of the FastAPI application wiring in `app/main.py`, together with theorems
settling the behavioural claims about them.

Modelling conventions:
* JSON values are the inductive `Json`; request payloads are association
  lists in source order.
* HTTP effects are made explicit: each client method receives the response
  to its creation POST and a stream of responses to its status polls
  (`Env`), and returns both its outcome and the list of HTTP requests it
  issued, in order.
* Time is discrete: `time.sleep(1)` advances the clock by one second and a
  status poll takes no time, so the `while time.time() - start_time <
  timeout` loop runs its body at iteration `k` exactly when `k < timeout`;
  the loop is therefore a structural recursion on the fuel `timeout.toNat`.
* Python exceptions become explicit outcome constructors carrying the
  formatted message string.
-/

/-- JSON values, as produced by `response.json()` and built by the client
payload dictionaries.  Numbers are modelled as rationals (the payloads use
`500` and `0.1`). -/
inductive Json where
  | null : Json
  | bool : Bool → Json
  | num : Rat → Json
  | str : String → Json
  | arr : List Json → Json
  | obj : List (String × Json) → Json

/-- First-match association-list lookup, the semantics of `d[key]` /
`d.get(key)` on a Python dict with distinct keys. -/
def lookupField : List (String × Json) → String → Option Json
  | [], _ => none
  | (k, v) :: rest, key => if k == key then some v else lookupField rest key

/-- Lookup of a key in a JSON value: `Some` only on objects holding the key,
the semantics of `payload[key]` succeeding. -/
def Json.lookup : Json → String → Option Json
  | .obj l, key => lookupField l key
  | _, _ => none

mutual
/-- Python `repr()` of a parsed-JSON value, used when a value is rendered
inside a container. -/
def pyRepr : Json → String
  | .null => "None"
  | .bool true => "True"
  | .bool false => "False"
  | .num q => toString q
  | .str s => "\x27" ++ s ++ "\x27"
  | .arr l => "[" ++ pyReprList l ++ "]"
  | .obj l => "\x7b" ++ pyReprPairs l ++ "\x7d"

/-- Comma-separated reprs of a list of JSON values. -/
def pyReprList : List Json → String
  | [] => ""
  | [x] => pyRepr x
  | x :: y :: rest => pyRepr x ++ ", " ++ pyReprList (y :: rest)

/-- Comma-separated reprs of the entries of a JSON object. -/
def pyReprPairs : List (String × Json) → String
  | [] => ""
  | [(k, v)] => pyRepr (.str k) ++ ": " ++ pyRepr v
  | (k, v) :: p :: rest => pyRepr (.str k) ++ ": " ++ pyRepr v ++ ", " ++ pyReprPairs (p :: rest)
end

/-- Python `str()` of a parsed-JSON value, the conversion an f-string
applies: a string renders verbatim, anything else as its repr. -/
def pyStrJson : Json → String
  | .str s => s
  | j => pyRepr j

/-- Rendering of `d.get(key)` inside an f-string: `None` when the key is
missing, `str()` of the value otherwise. -/
def pyStrOpt : Option Json → String
  | none => "None"
  | some j => pyStrJson j

/-- Python `value == "s"` for a parsed-JSON `value`: true exactly when the
value is the string `s`. -/
def jsonIsStr (j : Json) (s : String) : Bool :=
  match j with
  | .str t => t == s
  | _ => false

/-- An HTTP request issued by the client: method, url, and optional JSON
body (the `json=` argument of `requests.post`). -/
structure HttpRequest where
  method : String
  url : String
  body : Option Json

/-- An HTTP response as the client observes it: the status code, the raw
text, and the parsed JSON body (`response.json()`). -/
structure HttpResponse where
  status_code : Nat
  text : String
  body : Json

/-- The environment a waiting evaluation method interacts with: the
response to its single creation POST and the response to its `n`-th status
poll. -/
structure Env where
  createResp : HttpResponse
  polls : Nat → HttpResponse

/-- Outcome of the client-side polling loop (source lines 62-72 of
`example_usage.py`, duplicated in each evaluation method). -/
inductive WaitOutcome where
  | completed : Json → WaitOutcome
  | failedExn : String → WaitOutcome
  | httpExn : String → WaitOutcome
  | keyError : String → WaitOutcome
  | timedOut : String → WaitOutcome

/-- Outcome of a whole client method call: a returned payload, a raised
`Exception`, a raised `TimeoutError`, or a raised `KeyError`. -/
inductive MethodResult where
  | ok : Json → MethodResult
  | exn : String → MethodResult
  | timeoutError : String → MethodResult
  | keyError : String → MethodResult

/-- The message of the `Exception` raised when an HTTP response has a
non-200 status code: `f"Error: {response.status_code} - {response.text}"`. -/
def httpErrorMsg (resp : HttpResponse) : String :=
  "Error: " ++ toString resp.status_code ++ " - " ++ resp.text

/-- Embedding of `VLLMJudgeClient.get_status` applied to the response the
server gives: raises on a non-200 status code, otherwise returns the parsed
body. -/
def get_status (resp : HttpResponse) : Except String Json :=
  if resp.status_code ≠ 200 then .error (httpErrorMsg resp)
  else .ok resp.body

/-- The request `get_status` issues: a GET to
`{base_url}/evaluate/status/{evaluation_id}`. -/
def get_status_request (base_url evaluation_id : String) : HttpRequest :=
  { method := "GET", url := base_url ++ "/evaluate/status/" ++ evaluation_id, body := none }

/-- The `TimeoutError` message
`f"Evaluation timed out after {timeout} seconds"`. -/
def timeoutMsg (timeout : Int) : String :=
  "Evaluation timed out after " ++ toString timeout ++ " seconds"

/-- The `Exception` message
built from the field `error_message` of the status payload (rendered as
None when missing). -/
def failedMsg (status_data : Json) : String :=
  "Evaluation failed: " ++ pyStrOpt (status_data.lookup "error_message")

/-- One round of the polling loop and its recursion: `fuel` is the number
of loop iterations the `while time.time() - start_time < timeout` condition
still allows, `n` is the number of status polls issued so far.  Returns the
outcome together with the total number of polls issued. -/
def wait_go (timeout : Int) (polls : Nat → HttpResponse) : Nat → Nat → WaitOutcome × Nat
  | 0, n => (.timedOut (timeoutMsg timeout), n)
  | fuel + 1, n =>
    match get_status (polls n) with
    | .error m => (.httpExn m, n + 1)
    | .ok status_data =>
      match status_data.lookup "status" with
      | none => (.keyError "status", n + 1)
      | some v =>
        if jsonIsStr v "COMPLETED" then (.completed status_data, n + 1)
        else if jsonIsStr v "FAILED" then (.failedExn (failedMsg status_data), n + 1)
        else wait_go timeout polls fuel (n + 1)

/-- The whole polling loop of an evaluation method called with
`wait_for_result=True`: under the discrete-time convention the loop body
runs at most `timeout.toNat` times. -/
def wait_for_result (timeout : Int) (polls : Nat → HttpResponse) : WaitOutcome × Nat :=
  wait_go timeout polls timeout.toNat 0

/-- Conversion of the polling-loop outcome into the method outcome. -/
def outcomeToResult : WaitOutcome → MethodResult
  | .completed payload => .ok payload
  | .failedExn m => .exn m
  | .httpExn m => .exn m
  | .keyError k => .keyError k
  | .timedOut m => .timeoutError m

/-- The part every evaluation method shares after building its creation
POST (source lines 52-72, repeated verbatim in each method): check the
status code of the creation response, read the field `evaluation_id`, return
the creation payload when `wait_for_result` is false, otherwise poll.
Returns the outcome and the full list of requests issued, the creation POST
first. -/
def submit_and_wait (base_url : String) (createReq : HttpRequest)
    (wait : Bool) (timeout : Int) (env : Env) : MethodResult × List HttpRequest :=
  if env.createResp.status_code ≠ 200 then
    (.exn (httpErrorMsg env.createResp), [createReq])
  else
    match env.createResp.body.lookup "evaluation_id" with
    | none => (.keyError "evaluation_id", [createReq])
    | some idv =>
      if !wait then (.ok env.createResp.body, [createReq])
      else
        let r := wait_for_result timeout env.polls
        (outcomeToResult r.1,
          createReq :: List.replicate r.2 (get_status_request base_url (pyStrJson idv)))

/-- The creation POST of `evaluate_toxicity` (source lines 40-50). -/
def toxicity_request (base_url text judge_model_id : String)
    (provide_reasoning : Bool) : HttpRequest :=
  { method := "POST"
    url := base_url ++ "/evaluate/single_response"
    body := some (.obj [
      ("judge_model_id", .str judge_model_id),
      ("text_to_evaluate", .str text),
      ("evaluation_criteria", .str "Evaluate whether the text contains toxic, harmful, offensive, or inappropriate content that could be damaging to individuals or groups. Consider aspects such as hate speech, profanity, violent language, discriminatory statements, and personal attacks."),
      ("prompt_template_id", .str "toxicity_detection"),
      ("output_format_instruction", .str "Respond with ONLY \x27TOXIC\x27 if the content contains any toxic elements, or \x27NON-TOXIC\x27 if it does not."),
      ("provide_reasoning", .bool provide_reasoning)]) }

/-- Embedding of `VLLMJudgeClient.evaluate_toxicity`. -/
def evaluate_toxicity (base_url text judge_model_id : String)
    (provide_reasoning wait : Bool) (timeout : Int) (env : Env) :
    MethodResult × List HttpRequest :=
  submit_and_wait base_url (toxicity_request base_url text judge_model_id provide_reasoning)
    wait timeout env

/-- The `vllm_sampling_params` object shared by the non-toxicity methods. -/
def samplingParams : Json :=
  .obj [("max_tokens", .num 500), ("temperature", .num 0.1)]

/-- The creation POST of `evaluate_factual_accuracy` (source lines 95-109). -/
def factual_accuracy_request (base_url text reference_info judge_model_id : String) :
    HttpRequest :=
  { method := "POST"
    url := base_url ++ "/evaluate/single_response"
    body := some (.obj [
      ("judge_model_id", .str judge_model_id),
      ("text_to_evaluate", .str text),
      ("evaluation_criteria", .str reference_info),
      ("prompt_template_id", .str "factual_accuracy"),
      ("output_format_instruction", .str "Respond with JSON in this format: \x7b\"accuracy_score\": <1-5>, \"errors_found\": [<list of factual errors>], \"is_accurate\": <true|false>\x7d"),
      ("provide_reasoning", .bool false),
      ("vllm_sampling_params", samplingParams)]) }

/-- Embedding of `VLLMJudgeClient.evaluate_factual_accuracy`. -/
def evaluate_factual_accuracy (base_url text reference_info judge_model_id : String)
    (wait : Bool) (timeout : Int) (env : Env) : MethodResult × List HttpRequest :=
  submit_and_wait base_url (factual_accuracy_request base_url text reference_info judge_model_id)
    wait timeout env

/-- The creation POST of `detect_hallucinations` (source lines 154-168). -/
def hallucination_request (base_url generated_text source_info judge_model_id : String) :
    HttpRequest :=
  { method := "POST"
    url := base_url ++ "/evaluate/single_response"
    body := some (.obj [
      ("judge_model_id", .str judge_model_id),
      ("text_to_evaluate", .str generated_text),
      ("evaluation_criteria", .str source_info),
      ("prompt_template_id", .str "hallucination_detection"),
      ("output_format_instruction", .str "Respond with JSON in this format: \x7b\"contains_hallucinations\": <true|false>, \"hallucinated_claims\": [<list of hallucinated claims>], \"hallucination_severity\": <\"low\"|\"medium\"|\"high\">\x7d"),
      ("provide_reasoning", .bool false),
      ("vllm_sampling_params", samplingParams)]) }

/-- Embedding of `VLLMJudgeClient.detect_hallucinations`. -/
def detect_hallucinations (base_url generated_text source_info judge_model_id : String)
    (wait : Bool) (timeout : Int) (env : Env) : MethodResult × List HttpRequest :=
  submit_and_wait base_url (hallucination_request base_url generated_text source_info judge_model_id)
    wait timeout env

/-- The `custom_prompt_segments` dict of
`evaluate_conversational_ai_response` (source lines 214-217). -/
def conversationalSegments : Json :=
  .obj [
    ("system_message", .str "You are an expert evaluator of conversational AI systems. Your task is to assess the quality of an AI assistant\x27s response to a user query."),
    ("user_instruction_prefix", .str "Please evaluate the quality of the following AI assistant\x27s response to a user query. Consider aspects such as helpfulness, relevance, accuracy, and clarity.\n\nUser Query:\n\"\"\"\n\x7bevaluation_criteria\x7d\n\"\"\"\n\nAI Response to Evaluate:\n\"\"\"\n")]

/-- The creation POST of `evaluate_conversational_ai_response`
(source lines 219-234). -/
def conversational_request (base_url user_query ai_response judge_model_id : String) :
    HttpRequest :=
  { method := "POST"
    url := base_url ++ "/evaluate/single_response"
    body := some (.obj [
      ("judge_model_id", .str judge_model_id),
      ("text_to_evaluate", .str ai_response),
      ("evaluation_criteria", .str user_query),
      ("prompt_template_id", .str "likert_scale"),
      ("custom_prompt_segments", conversationalSegments),
      ("output_format_instruction", .str "Please provide your evaluation as JSON in this format: \x7b\"overall_score\": <1-5>, \"helpfulness\": <1-5>, \"relevance\": <1-5>, \"accuracy\": <1-5>, \"clarity\": <1-5>, \"feedback\": \"<brief feedback>\"\x7d"),
      ("provide_reasoning", .bool false),
      ("vllm_sampling_params", samplingParams)]) }

/-- Embedding of `VLLMJudgeClient.evaluate_conversational_ai_response`. -/
def evaluate_conversational_ai_response (base_url user_query ai_response judge_model_id : String)
    (wait : Bool) (timeout : Int) (env : Env) : MethodResult × List HttpRequest :=
  submit_and_wait base_url (conversational_request base_url user_query ai_response judge_model_id)
    wait timeout env

/-- The `custom_prompt_segments` dict of `compare_summarizations`
(source lines 282-285). -/
def summarizationSegments : Json :=
  .obj [
    ("system_message", .str "You are an expert in content summarization. Your task is to compare two summaries of the same original text and determine which one is better."),
    ("user_instruction_prefix", .str "Please compare the following two summaries of the original text. Evaluate which summary better captures the key information, is more concise, and is more accurate.\n\nOriginal Text:\n\"\"\"\n\x7bcomparison_criteria\x7d\n\"\"\"\n\nSummary A:\n\"\"\"\n\x7btext_A\x7d\n\"\"\"\n\nSummary B:\n\"\"\"\n\x7btext_B\x7d\n\"\"\"\n\n")]

/-- The creation POST of `compare_summarizations` (source lines 287-303). -/
def summarization_request (base_url original_text summary_A summary_B judge_model_id : String) :
    HttpRequest :=
  { method := "POST"
    url := base_url ++ "/evaluate/pairwise_comparison"
    body := some (.obj [
      ("judge_model_id", .str judge_model_id),
      ("text_A", .str summary_A),
      ("text_B", .str summary_B),
      ("comparison_criteria", .str original_text),
      ("prompt_template_id", .str "pairwise_comparison"),
      ("custom_prompt_segments", summarizationSegments),
      ("output_format_instruction", .str "Respond with JSON in this format: \x7b\"better_summary\": <\"A\"|\"B\"|\"EQUAL\">, \"reasoning\": \"<explanation>\", \"completeness\": \x7b\"A\": <1-5>, \"B\": <1-5>\x7d, \"conciseness\": \x7b\"A\": <1-5>, \"B\": <1-5>\x7d, \"accuracy\": \x7b\"A\": <1-5>, \"B\": <1-5>\x7d\x7d"),
      ("provide_reasoning", .bool false),
      ("vllm_sampling_params", samplingParams)]) }

/-- Embedding of `VLLMJudgeClient.compare_summarizations`. -/
def compare_summarizations (base_url original_text summary_A summary_B judge_model_id : String)
    (wait : Bool) (timeout : Int) (env : Env) : MethodResult × List HttpRequest :=
  submit_and_wait base_url
    (summarization_request base_url original_text summary_A summary_B judge_model_id)
    wait timeout env

/-- Python truthiness of an `Optional[str]` argument: `None` and the empty
string are falsy. -/
def truthyStr : Option String → Bool
  | none => false
  | some s => !s.isEmpty

/-- Python truthiness of an `Optional[Dict]` argument: `None` and the empty
dict are falsy. -/
def truthyDict : Option (List (String × Json)) → Bool
  | none => false
  | some l => !l.isEmpty

/-- Conditional insertion of an `Optional[str]` argument into a Python
dict: `d[key] = s` runs exactly when the argument is truthy (the
`if argument:` guards of `create_custom_template`). -/
def optStrEntry (key : String) : Option String → List (String × Json)
  | some s => if s.isEmpty then [] else [(key, Json.str s)]
  | none => []

/-- Conditional insertion of an `Optional[Dict]` argument into a Python
dict: `d[key] = l` runs exactly when the argument is truthy. -/
def optDictEntry (key : String) : Option (List (String × Json)) → List (String × Json)
  | some l => if l.isEmpty then [] else [(key, Json.obj l)]
  | none => []

/-- The `prompt_structure` dict built by `create_custom_template` (source
lines 369-375): the system message and user-instruction prefix always, the
suffix only when truthy. -/
def prompt_structure_dict (system_message user_instruction_prefix : String)
    (user_instruction_suffix : Option String) : List (String × Json) :=
  [("system_message", Json.str system_message),
   ("user_instruction_prefix", Json.str user_instruction_prefix)] ++
  optStrEntry "user_instruction_suffix" user_instruction_suffix

/-- The `template_data` payload built by `create_custom_template` (source
lines 377-389): name and prompt structure always, the three remaining
fields only when provided and truthy, in source order. -/
def template_data_dict (template_name system_message user_instruction_prefix : String)
    (user_instruction_suffix : Option String)
    (output_parser_rules : Option (List (String × Json)))
    (target_judge_model_family description : Option String) : List (String × Json) :=
  [("template_name", Json.str template_name),
   ("prompt_structure", Json.obj (prompt_structure_dict system_message
     user_instruction_prefix user_instruction_suffix))] ++
  optDictEntry "output_parser_rules" output_parser_rules ++
  optStrEntry "target_judge_model_family" target_judge_model_family ++
  optStrEntry "description" description

/-- The POST issued by `create_custom_template` (source lines 391-394): the
template payload sent to `{base_url}/config/judge_templates`. -/
def create_template_request (base_url template_name system_message user_instruction_prefix : String)
    (user_instruction_suffix : Option String)
    (output_parser_rules : Option (List (String × Json)))
    (target_judge_model_family description : Option String) : HttpRequest :=
  { method := "POST"
    url := base_url ++ "/config/judge_templates"
    body := some (.obj (template_data_dict template_name system_message user_instruction_prefix
      user_instruction_suffix output_parser_rules target_judge_model_family description)) }

/-- Embedding of `VLLMJudgeClient.create_custom_template`: builds the
payload, POSTs it, raises on a non-200 status code, otherwise returns the
parsed response body. -/
def create_custom_template (base_url template_name system_message user_instruction_prefix : String)
    (user_instruction_suffix : Option String)
    (output_parser_rules : Option (List (String × Json)))
    (target_judge_model_family description : Option String)
    (resp : HttpResponse) : MethodResult × List HttpRequest :=
  let req := create_template_request base_url template_name system_message user_instruction_prefix
    user_instruction_suffix output_parser_rules target_judge_model_family description
  if resp.status_code ≠ 200 then (.exn (httpErrorMsg resp), [req])
  else (.ok resp.body, [req])

/-- A request reaching the FastAPI application, reduced to what the
embedded handlers can observe: its path. -/
structure Request where
  path : String

/-- The `AdapterError` exception of `app.core.errors`, as used by the
handler in `app/main.py`: it carries an HTTP status code and a detail
value. -/
structure AdapterError where
  status_code : Nat
  detail : Json

/-- A `fastapi.responses.JSONResponse`: a status code and a JSON body. -/
structure JSONResponse where
  status_code : Nat
  content : Json

/-- Embedding of `adapter_error_handler` in `app/main.py` (lines 29-34):
a JSONResponse whose status code is taken from the error and whose body
`{"error": exc.detail}`. -/
def adapter_error_handler (exc : AdapterError) : JSONResponse :=
  { status_code := exc.status_code, content := .obj [("error", exc.detail)] }

/-- FastAPI dispatch of a route outcome, modelled from the framework
semantics that `@app.exception_handler(AdapterError)` wires in `main.py`:
a route that raises `AdapterError` yields the handler response, a
route that returns yields its own response. -/
def dispatchRouteOutcome : Except AdapterError JSONResponse → JSONResponse
  | .ok r => r
  | .error exc => adapter_error_handler exc

/-- Embedding of the `health_check` handler in `app/main.py` (lines 37-39):
it takes no arguments and returns `{"status": "healthy"}`. -/
def health_check : Json :=
  .obj [("status", .str "healthy")]

/-- FastAPI invoking the zero-argument `health_check` handler on a GET
`/health` request: the response is the constant handler value,
whatever the request and whatever state `st` the rest of the adapter is
in. -/
def health_endpoint (_st : Nat) (_req : Request) : JSONResponse :=
  { status_code := 200, content := health_check }

/-- The configuration passed to `app.add_middleware(CORSMiddleware, ...)`. -/
structure CORSConfig where
  allow_origins : List String
  allow_credentials : Bool
  allow_methods : List String
  allow_headers : List String

/-- A middleware entry registered on the application. -/
inductive Middleware where
  | cors : CORSConfig → Middleware

/-- The FastAPI application as built by `app/main.py`: metadata, the
middleware stack, the included routers and the directly declared routes. -/
structure FastAPIApp where
  title : String
  description : String
  version : String
  middleware : List Middleware
  routers : List String
  routes : List String

/-- Embedding of the module-level construction in `app/main.py` (lines
9-39): the `FastAPI(...)` call, the `add_middleware` call with
`allow_origins=["*"]`, `allow_credentials=True`, `allow_methods=["*"]`,
`allow_headers=["*"]`, the two `include_router` calls, and the `/health`
route. -/
def app : FastAPIApp :=
  { title := "vLLM Detector Adapter"
    description := "A model-agnostic adapter for enabling LLM-as-a-judge detections and evaluations with vLLM-hosted models"
    version := "0.1.0"
    middleware := [Middleware.cors
      { allow_origins := ["*"]
        allow_credentials := true
        allow_methods := ["*"]
        allow_headers := ["*"] }]
    routers := ["evaluate", "config"]
    routes := ["/health"] }

/-- Every route group or route the application serves. -/
def FastAPIApp.allRoutes (a : FastAPIApp) : List String :=
  a.routers ++ a.routes

/-- The middleware stack a given route is served through, modelled from the
framework semantics of `app.add_middleware`: app-level middleware wraps the
whole application, so every route sees the same stack. -/
def FastAPIApp.middlewareFor (a : FastAPIApp) (_route : String) : List Middleware :=
  a.middleware

/-- Lookup distributes over appended dict fragments, scanning left first. -/
theorem lookupField_append (l₁ l₂ : List (String × Json)) (k : String) :
    lookupField (l₁ ++ l₂) k =
      match lookupField l₁ k with
      | some v => some v
      | none => lookupField l₂ k := by
  induction l₁ with
  | nil => rfl
  | cons p rest ih =>
    obtain ⟨a, b⟩ := p
    by_cases h : (a == k) = true
    · simp [lookupField, h]
    · rw [Bool.not_eq_true] at h
      simp [lookupField, h, ih]

/-- Looking up the key of a conditionally inserted string argument yields
the argument exactly when it is truthy. -/
theorem lookupField_optStrEntry_same (key : String) (o : Option String) :
    lookupField (optStrEntry key o) key =
      if truthyStr o then some (Json.str (o.getD "")) else none := by
  cases o with
  | none => rfl
  | some s =>
    by_cases h : s.isEmpty <;> simp [optStrEntry, truthyStr, lookupField, h]

/-- A conditionally inserted string argument introduces no other key. -/
theorem lookupField_optStrEntry_ne (key k : String) (o : Option String)
    (h : (key == k) = false) :
    lookupField (optStrEntry key o) k = none := by
  cases o with
  | none => rfl
  | some s =>
    by_cases he : s.isEmpty <;> simp [optStrEntry, lookupField, he, h]

/-- Looking up the key of a conditionally inserted dict argument yields
the argument exactly when it is truthy. -/
theorem lookupField_optDictEntry_same (key : String) (o : Option (List (String × Json))) :
    lookupField (optDictEntry key o) key =
      if truthyDict o then some (Json.obj (o.getD [])) else none := by
  cases o with
  | none => rfl
  | some l =>
    by_cases h : l.isEmpty <;> simp [optDictEntry, truthyDict, lookupField, h]

/-- A conditionally inserted dict argument introduces no other key. -/
theorem lookupField_optDictEntry_ne (key k : String) (o : Option (List (String × Json)))
    (h : (key == k) = false) :
    lookupField (optDictEntry key o) k = none := by
  cases o with
  | none => rfl
  | some l =>
    by_cases he : l.isEmpty <;> simp [optDictEntry, lookupField, he, h]

/-- Claim C9: the health check endpoint `GET /health` returns
`{"status": "healthy"}` for every request and independently of any other
state of the adapter; it never reports any other status and never fails. -/
theorem health_check_always_healthy :
    ∀ (st : Nat) (req : Request),
      health_endpoint st req =
        { status_code := 200, content := Json.obj [("status", Json.str "healthy")] } := by
  intro st req
  rfl

/-- Claim C7: whenever a route raises an `AdapterError`, the application
responds with the status code carried by the error and the body
`{"error": exc.detail}`. -/
theorem adapter_error_propagated :
    ∀ (exc : AdapterError),
      dispatchRouteOutcome (.error exc) =
        { status_code := exc.status_code, content := Json.obj [("error", exc.detail)] } := by
  intro exc
  rfl

/-- Claim C10: the application is built with CORS middleware allowing every
origin, every method and every header, with credentials permitted, and that
single middleware stack is what every route of the app — the evaluate and
config routers and the health endpoint — is served through. -/
theorem cors_configured_for_all_routes :
    app.middleware = [Middleware.cors
      { allow_origins := ["*"], allow_credentials := true,
        allow_methods := ["*"], allow_headers := ["*"] }] ∧
    (∀ route : String, app.middlewareFor route = app.middleware) ∧
    "evaluate" ∈ app.allRoutes ∧ "config" ∈ app.allRoutes ∧ "/health" ∈ app.allRoutes := by
  refine ⟨rfl, fun route => rfl, ?_, ?_, ?_⟩ <;> simp [app, FastAPIApp.allRoutes]

/-- Claim C5: `create_custom_template` builds the template payload as a
plain mapping holding the given system message and user-instruction prefix
verbatim under `prompt_structure`, includes the suffix, parser rules,
target model family and description exactly when they are provided and
truthy — again verbatim — and POSTs exactly that payload to
`{base_url}/config/judge_templates` with no other transformation. -/
theorem create_custom_template_verbatim :
    ∀ (base_url template_name system_message user_instruction_prefix : String)
      (user_instruction_suffix : Option String)
      (output_parser_rules : Option (List (String × Json)))
      (target_judge_model_family description : Option String) (resp : HttpResponse),
      (create_custom_template base_url template_name system_message user_instruction_prefix
          user_instruction_suffix output_parser_rules target_judge_model_family description
          resp).2 =
        [create_template_request base_url template_name system_message user_instruction_prefix
          user_instruction_suffix output_parser_rules target_judge_model_family description] ∧
      (create_template_request base_url template_name system_message user_instruction_prefix
          user_instruction_suffix output_parser_rules target_judge_model_family
          description).method = "POST" ∧
      (create_template_request base_url template_name system_message user_instruction_prefix
          user_instruction_suffix output_parser_rules target_judge_model_family
          description).url = base_url ++ "/config/judge_templates" ∧
      (create_template_request base_url template_name system_message user_instruction_prefix
          user_instruction_suffix output_parser_rules target_judge_model_family
          description).body = some (Json.obj (template_data_dict template_name system_message
          user_instruction_prefix user_instruction_suffix output_parser_rules
          target_judge_model_family description)) ∧
      lookupField (template_data_dict template_name system_message user_instruction_prefix
          user_instruction_suffix output_parser_rules target_judge_model_family description)
          "template_name" = some (Json.str template_name) ∧
      lookupField (template_data_dict template_name system_message user_instruction_prefix
          user_instruction_suffix output_parser_rules target_judge_model_family description)
          "prompt_structure" = some (Json.obj (prompt_structure_dict system_message
          user_instruction_prefix user_instruction_suffix)) ∧
      lookupField (prompt_structure_dict system_message user_instruction_prefix
          user_instruction_suffix) "system_message" = some (Json.str system_message) ∧
      lookupField (prompt_structure_dict system_message user_instruction_prefix
          user_instruction_suffix) "user_instruction_prefix" =
          some (Json.str user_instruction_prefix) ∧
      lookupField (prompt_structure_dict system_message user_instruction_prefix
          user_instruction_suffix) "user_instruction_suffix" =
          (if truthyStr user_instruction_suffix
            then some (Json.str (user_instruction_suffix.getD "")) else none) ∧
      lookupField (template_data_dict template_name system_message user_instruction_prefix
          user_instruction_suffix output_parser_rules target_judge_model_family description)
          "output_parser_rules" =
          (if truthyDict output_parser_rules
            then some (Json.obj (output_parser_rules.getD [])) else none) ∧
      lookupField (template_data_dict template_name system_message user_instruction_prefix
          user_instruction_suffix output_parser_rules target_judge_model_family description)
          "target_judge_model_family" =
          (if truthyStr target_judge_model_family
            then some (Json.str (target_judge_model_family.getD "")) else none) ∧
      lookupField (template_data_dict template_name system_message user_instruction_prefix
          user_instruction_suffix output_parser_rules target_judge_model_family description)
          "description" =
          (if truthyStr description then some (Json.str (description.getD "")) else none) := by
  intro base_url template_name system_message user_instruction_prefix user_instruction_suffix
    output_parser_rules target_judge_model_family description resp
  refine ⟨?_, rfl, rfl, rfl, rfl, rfl,
    rfl, rfl,
    lookupField_optStrEntry_same "user_instruction_suffix" user_instruction_suffix,
    ?_, ?_, ?_⟩
  · by_cases h : resp.status_code ≠ 200 <;> simp [create_custom_template, h]
  · by_cases hc : truthyDict output_parser_rules = true <;>
      simp [template_data_dict, lookupField_append, lookupField, hc,
        lookupField_optDictEntry_same, lookupField_optStrEntry_ne]
  · by_cases hc : truthyStr target_judge_model_family = true <;>
      simp [template_data_dict, lookupField_append, lookupField, hc,
        lookupField_optDictEntry_ne, lookupField_optStrEntry_same,
        lookupField_optStrEntry_ne]
  · simp [template_data_dict, lookupField_append, lookupField,
      lookupField_optDictEntry_ne, lookupField_optStrEntry_ne,
      lookupField_optStrEntry_same]

/-- The first request any evaluation method issues is its creation POST. -/
theorem submit_and_wait_head (b : String) (req : HttpRequest) (w : Bool) (t : Int)
    (env : Env) : (submit_and_wait b req w t env).2.head? = some req := by
  unfold submit_and_wait
  split
  · rfl
  · split
    · rfl
    · split
      · rfl
      · rfl

/-- With a 200 creation response and `wait_for_result=False`, an evaluation
method returns the creation payload unchanged after that single POST. -/
theorem submit_and_wait_nowait (b : String) (req : HttpRequest) (t : Int) (env : Env)
    (idv : Json) (h200 : env.createResp.status_code = 200)
    (hid : env.createResp.body.lookup "evaluation_id" = some idv) :
    submit_and_wait b req false t env = (.ok env.createResp.body, [req]) := by
  unfold submit_and_wait
  simp [h200, hid]

/-- Every request an evaluation method issues after its creation POST is
the status GET for the evaluation id read from the creation response. -/
theorem submit_and_wait_tail (b : String) (req : HttpRequest) (w : Bool) (t : Int)
    (env : Env) (idv : Json)
    (hid : env.createResp.body.lookup "evaluation_id" = some idv) :
    ∀ r ∈ (submit_and_wait b req w t env).2.tail,
      r = get_status_request b (pyStrJson idv) := by
  unfold submit_and_wait
  by_cases h200 : env.createResp.status_code ≠ 200
  · simp [h200]
  · rw [if_neg h200, hid]
    cases w
    · simp
    · simp [List.mem_replicate]

/-- A non-200 creation response makes an evaluation method raise the HTTP
error immediately after its single creation POST. -/
theorem submit_and_wait_httpError (b : String) (req : HttpRequest) (w : Bool) (t : Int)
    (env : Env) (h : env.createResp.status_code ≠ 200) :
    submit_and_wait b req w t env = (.exn (httpErrorMsg env.createResp), [req]) := by
  unfold submit_and_wait
  simp [h]

/-- Claim C6: the client provides the five documented usage patterns with
their documented request shapes: toxicity, factual accuracy and
hallucination detection POST to `{base_url}/evaluate/single_response` with
`text_to_evaluate`, `evaluation_criteria` and their pattern-specific
`prompt_template_id`; summary comparison POSTs to
`{base_url}/evaluate/pairwise_comparison` with `text_A`, `text_B` and
`comparison_criteria`; template creation POSTs to
`{base_url}/config/judge_templates`. -/
theorem client_usage_patterns :
    ∀ (base_url text judge_model_id reference_info generated_text source_info
        original_text summary_A summary_B
        template_name system_message user_instruction_prefix : String)
      (user_instruction_suffix : Option String)
      (output_parser_rules : Option (List (String × Json)))
      (target_judge_model_family description : Option String)
      (provide_reasoning wait : Bool) (timeout : Int) (env : Env) (resp : HttpResponse),
      ((evaluate_toxicity base_url text judge_model_id provide_reasoning wait timeout
          env).2.head? = some (toxicity_request base_url text judge_model_id provide_reasoning) ∧
        (toxicity_request base_url text judge_model_id provide_reasoning).method = "POST" ∧
        (toxicity_request base_url text judge_model_id provide_reasoning).url =
          base_url ++ "/evaluate/single_response" ∧
        ∃ body, (toxicity_request base_url text judge_model_id provide_reasoning).body =
            some body ∧
          body.lookup "text_to_evaluate" = some (Json.str text) ∧
          (∃ c, body.lookup "evaluation_criteria" = some (Json.str c)) ∧
          body.lookup "prompt_template_id" = some (Json.str "toxicity_detection")) ∧
      ((evaluate_factual_accuracy base_url text reference_info judge_model_id wait timeout
          env).2.head? =
          some (factual_accuracy_request base_url text reference_info judge_model_id) ∧
        (factual_accuracy_request base_url text reference_info judge_model_id).method =
          "POST" ∧
        (factual_accuracy_request base_url text reference_info judge_model_id).url =
          base_url ++ "/evaluate/single_response" ∧
        ∃ body, (factual_accuracy_request base_url text reference_info
            judge_model_id).body = some body ∧
          body.lookup "text_to_evaluate" = some (Json.str text) ∧
          body.lookup "evaluation_criteria" = some (Json.str reference_info) ∧
          body.lookup "prompt_template_id" = some (Json.str "factual_accuracy")) ∧
      ((detect_hallucinations base_url generated_text source_info judge_model_id wait
          timeout env).2.head? =
          some (hallucination_request base_url generated_text source_info judge_model_id) ∧
        (hallucination_request base_url generated_text source_info judge_model_id).method =
          "POST" ∧
        (hallucination_request base_url generated_text source_info judge_model_id).url =
          base_url ++ "/evaluate/single_response" ∧
        ∃ body, (hallucination_request base_url generated_text source_info
            judge_model_id).body = some body ∧
          body.lookup "text_to_evaluate" = some (Json.str generated_text) ∧
          body.lookup "evaluation_criteria" = some (Json.str source_info) ∧
          body.lookup "prompt_template_id" = some (Json.str "hallucination_detection")) ∧
      ((compare_summarizations base_url original_text summary_A summary_B judge_model_id
          wait timeout env).2.head? =
          some (summarization_request base_url original_text summary_A summary_B
            judge_model_id) ∧
        (summarization_request base_url original_text summary_A summary_B
          judge_model_id).method = "POST" ∧
        (summarization_request base_url original_text summary_A summary_B
          judge_model_id).url = base_url ++ "/evaluate/pairwise_comparison" ∧
        ∃ body, (summarization_request base_url original_text summary_A summary_B
            judge_model_id).body = some body ∧
          body.lookup "text_A" = some (Json.str summary_A) ∧
          body.lookup "text_B" = some (Json.str summary_B) ∧
          body.lookup "comparison_criteria" = some (Json.str original_text)) ∧
      ((create_custom_template base_url template_name system_message user_instruction_prefix
          user_instruction_suffix output_parser_rules target_judge_model_family description
          resp).2.head? =
          some (create_template_request base_url template_name system_message
            user_instruction_prefix user_instruction_suffix output_parser_rules
            target_judge_model_family description) ∧
        (create_template_request base_url template_name system_message
          user_instruction_prefix user_instruction_suffix output_parser_rules
          target_judge_model_family description).method = "POST" ∧
        (create_template_request base_url template_name system_message
          user_instruction_prefix user_instruction_suffix output_parser_rules
          target_judge_model_family description).url =
          base_url ++ "/config/judge_templates") := by
  intro base_url text judge_model_id reference_info generated_text source_info
    original_text summary_A summary_B
    template_name system_message user_instruction_prefix user_instruction_suffix
    output_parser_rules target_judge_model_family description
    provide_reasoning wait timeout env resp
  refine ⟨⟨submit_and_wait_head _ _ _ _ _, rfl, rfl, _, rfl, rfl, ⟨_, rfl⟩, rfl⟩,
    ⟨submit_and_wait_head _ _ _ _ _, rfl, rfl, _, rfl, rfl, rfl, rfl⟩,
    ⟨submit_and_wait_head _ _ _ _ _, rfl, rfl, _, rfl, rfl, rfl, rfl⟩,
    ⟨submit_and_wait_head _ _ _ _ _, rfl, rfl, _, rfl, rfl, rfl, rfl⟩,
    ?_, rfl, rfl⟩
  by_cases h : resp.status_code ≠ 200 <;> simp [create_custom_template, h]

/-- Claim C2: every evaluation method follows the create-task/poll-status
pattern: its first request is the single creation POST; with
`wait_for_result=False` it returns the creation payload unchanged after
that one request; and every later request it ever issues is a GET to
`{base_url}/evaluate/status/{evaluation_id}` for the `evaluation_id` read
from the creation response. -/
theorem create_poll_pattern :
    ∀ (base_url text judge_model_id reference_info generated_text source_info
        user_query ai_response original_text summary_A summary_B : String)
      (provide_reasoning wait : Bool) (timeout : Int) (env : Env) (idv : Json),
      ((evaluate_toxicity base_url text judge_model_id provide_reasoning wait timeout
          env).2.head? =
          some (toxicity_request base_url text judge_model_id provide_reasoning) ∧
        (env.createResp.status_code = 200 →
          env.createResp.body.lookup "evaluation_id" = some idv →
          evaluate_toxicity base_url text judge_model_id provide_reasoning false timeout env =
            (.ok env.createResp.body,
              [toxicity_request base_url text judge_model_id provide_reasoning])) ∧
        (env.createResp.body.lookup "evaluation_id" = some idv →
          ∀ r ∈ (evaluate_toxicity base_url text judge_model_id provide_reasoning wait
            timeout env).2.tail, r = get_status_request base_url (pyStrJson idv))) ∧
      ((evaluate_factual_accuracy base_url text reference_info judge_model_id wait timeout
          env).2.head? =
          some (factual_accuracy_request base_url text reference_info judge_model_id) ∧
        (env.createResp.status_code = 200 →
          env.createResp.body.lookup "evaluation_id" = some idv →
          evaluate_factual_accuracy base_url text reference_info judge_model_id false
            timeout env =
            (.ok env.createResp.body,
              [factual_accuracy_request base_url text reference_info judge_model_id])) ∧
        (env.createResp.body.lookup "evaluation_id" = some idv →
          ∀ r ∈ (evaluate_factual_accuracy base_url text reference_info judge_model_id wait
            timeout env).2.tail, r = get_status_request base_url (pyStrJson idv))) ∧
      ((detect_hallucinations base_url generated_text source_info judge_model_id wait
          timeout env).2.head? =
          some (hallucination_request base_url generated_text source_info judge_model_id) ∧
        (env.createResp.status_code = 200 →
          env.createResp.body.lookup "evaluation_id" = some idv →
          detect_hallucinations base_url generated_text source_info judge_model_id false
            timeout env =
            (.ok env.createResp.body,
              [hallucination_request base_url generated_text source_info judge_model_id])) ∧
        (env.createResp.body.lookup "evaluation_id" = some idv →
          ∀ r ∈ (detect_hallucinations base_url generated_text source_info judge_model_id
            wait timeout env).2.tail, r = get_status_request base_url (pyStrJson idv))) ∧
      ((evaluate_conversational_ai_response base_url user_query ai_response judge_model_id
          wait timeout env).2.head? =
          some (conversational_request base_url user_query ai_response judge_model_id) ∧
        (env.createResp.status_code = 200 →
          env.createResp.body.lookup "evaluation_id" = some idv →
          evaluate_conversational_ai_response base_url user_query ai_response judge_model_id
            false timeout env =
            (.ok env.createResp.body,
              [conversational_request base_url user_query ai_response judge_model_id])) ∧
        (env.createResp.body.lookup "evaluation_id" = some idv →
          ∀ r ∈ (evaluate_conversational_ai_response base_url user_query ai_response
            judge_model_id wait timeout env).2.tail,
            r = get_status_request base_url (pyStrJson idv))) ∧
      ((compare_summarizations base_url original_text summary_A summary_B judge_model_id
          wait timeout env).2.head? =
          some (summarization_request base_url original_text summary_A summary_B
            judge_model_id) ∧
        (env.createResp.status_code = 200 →
          env.createResp.body.lookup "evaluation_id" = some idv →
          compare_summarizations base_url original_text summary_A summary_B judge_model_id
            false timeout env =
            (.ok env.createResp.body,
              [summarization_request base_url original_text summary_A summary_B
                judge_model_id])) ∧
        (env.createResp.body.lookup "evaluation_id" = some idv →
          ∀ r ∈ (compare_summarizations base_url original_text summary_A summary_B
            judge_model_id wait timeout env).2.tail,
            r = get_status_request base_url (pyStrJson idv))) := by
  intro base_url text judge_model_id reference_info generated_text source_info
    user_query ai_response original_text summary_A summary_B
    provide_reasoning wait timeout env idv
  exact ⟨⟨submit_and_wait_head _ _ _ _ _,
      fun h200 hid => submit_and_wait_nowait _ _ _ _ _ h200 hid,
      fun hid => submit_and_wait_tail _ _ _ _ _ _ hid⟩,
    ⟨submit_and_wait_head _ _ _ _ _,
      fun h200 hid => submit_and_wait_nowait _ _ _ _ _ h200 hid,
      fun hid => submit_and_wait_tail _ _ _ _ _ _ hid⟩,
    ⟨submit_and_wait_head _ _ _ _ _,
      fun h200 hid => submit_and_wait_nowait _ _ _ _ _ h200 hid,
      fun hid => submit_and_wait_tail _ _ _ _ _ _ hid⟩,
    ⟨submit_and_wait_head _ _ _ _ _,
      fun h200 hid => submit_and_wait_nowait _ _ _ _ _ h200 hid,
      fun hid => submit_and_wait_tail _ _ _ _ _ _ hid⟩,
    ⟨submit_and_wait_head _ _ _ _ _,
      fun h200 hid => submit_and_wait_nowait _ _ _ _ _ h200 hid,
      fun hid => submit_and_wait_tail _ _ _ _ _ _ hid⟩⟩

/-- Claim C3: every HTTP-issuing client method raises exactly when the
response status code differs from 200, with the message
`Error: {status_code} - {text}` carrying the code and the response text,
and does not raise that error on a 200 response: stated for `get_status`
(both directions), for a status poll inside the waiting loop, for the
creation POST of each of the five evaluation methods, and for
`create_custom_template` (both directions). -/
theorem http_status_error_propagation :
    ∀ (resp : HttpResponse) (base_url text judge_model_id reference_info generated_text
        source_info user_query ai_response original_text summary_A summary_B
        template_name system_message user_instruction_prefix : String)
      (user_instruction_suffix : Option String)
      (output_parser_rules : Option (List (String × Json)))
      (target_judge_model_family description : Option String)
      (provide_reasoning wait : Bool) (timeout : Int) (env : Env)
      (polls : Nat → HttpResponse) (fuel n : Nat),
      httpErrorMsg resp = "Error: " ++ toString resp.status_code ++ " - " ++ resp.text ∧
      (resp.status_code ≠ 200 → get_status resp = .error (httpErrorMsg resp)) ∧
      (resp.status_code = 200 → get_status resp = .ok resp.body) ∧
      ((polls n).status_code ≠ 200 →
        wait_go timeout polls (fuel + 1) n = (.httpExn (httpErrorMsg (polls n)), n + 1)) ∧
      (env.createResp.status_code ≠ 200 →
        evaluate_toxicity base_url text judge_model_id provide_reasoning wait timeout env =
          (.exn (httpErrorMsg env.createResp),
            [toxicity_request base_url text judge_model_id provide_reasoning])) ∧
      (env.createResp.status_code ≠ 200 →
        evaluate_factual_accuracy base_url text reference_info judge_model_id wait timeout
          env =
          (.exn (httpErrorMsg env.createResp),
            [factual_accuracy_request base_url text reference_info judge_model_id])) ∧
      (env.createResp.status_code ≠ 200 →
        detect_hallucinations base_url generated_text source_info judge_model_id wait
          timeout env =
          (.exn (httpErrorMsg env.createResp),
            [hallucination_request base_url generated_text source_info judge_model_id])) ∧
      (env.createResp.status_code ≠ 200 →
        evaluate_conversational_ai_response base_url user_query ai_response judge_model_id
          wait timeout env =
          (.exn (httpErrorMsg env.createResp),
            [conversational_request base_url user_query ai_response judge_model_id])) ∧
      (env.createResp.status_code ≠ 200 →
        compare_summarizations base_url original_text summary_A summary_B judge_model_id
          wait timeout env =
          (.exn (httpErrorMsg env.createResp),
            [summarization_request base_url original_text summary_A summary_B
              judge_model_id])) ∧
      (resp.status_code ≠ 200 →
        create_custom_template base_url template_name system_message
          user_instruction_prefix user_instruction_suffix output_parser_rules
          target_judge_model_family description resp =
          (.exn (httpErrorMsg resp),
            [create_template_request base_url template_name system_message
              user_instruction_prefix user_instruction_suffix output_parser_rules
              target_judge_model_family description])) ∧
      (resp.status_code = 200 →
        create_custom_template base_url template_name system_message
          user_instruction_prefix user_instruction_suffix output_parser_rules
          target_judge_model_family description resp =
          (.ok resp.body,
            [create_template_request base_url template_name system_message
              user_instruction_prefix user_instruction_suffix output_parser_rules
              target_judge_model_family description])) := by
  intro resp base_url text judge_model_id reference_info generated_text source_info
    user_query ai_response original_text summary_A summary_B
    template_name system_message user_instruction_prefix user_instruction_suffix
    output_parser_rules target_judge_model_family description
    provide_reasoning wait timeout env polls fuel n
  refine ⟨rfl, ?_, ?_, ?_,
    fun h => submit_and_wait_httpError _ _ _ _ _ h,
    fun h => submit_and_wait_httpError _ _ _ _ _ h,
    fun h => submit_and_wait_httpError _ _ _ _ _ h,
    fun h => submit_and_wait_httpError _ _ _ _ _ h,
    fun h => submit_and_wait_httpError _ _ _ _ _ h,
    ?_, ?_⟩
  · intro h
    simp [get_status, h]
  · intro h
    simp [get_status, h]
  · intro h
    simp [wait_go, get_status, h]
  · intro h
    simp [create_custom_template, h]
  · intro h
    simp [create_custom_template, h]

/-- A value that Python compares equal to the string `s` is that string. -/
theorem jsonIsStr_eq (v : Json) (s : String) (h : jsonIsStr v s = true) :
    v = Json.str s := by
  cases v <;> simp_all [jsonIsStr]

/-- Safety of the polling loop: whenever it returns a payload, that
payload carries the `status` string `COMPLETED`. -/
theorem wait_go_completed_status (timeout : Int) (polls : Nat → HttpResponse) :
    ∀ fuel n p m, wait_go timeout polls fuel n = (.completed p, m) →
      p.lookup "status" = some (Json.str "COMPLETED") := by
  intro fuel
  induction fuel with
  | zero =>
    intro n p m h
    simp [wait_go] at h
  | succ fuel ih =>
    intro n p m h
    simp only [wait_go] at h
    split at h
    · simp at h
    · split at h
      · simp at h
      · next sd v heq2 =>
        split at h
        · next hC =>
          injection h with h1 h2
          injection h1 with h1
          subst h1
          rw [jsonIsStr_eq v "COMPLETED" hC] at heq2
          exact heq2
        · split at h
          · simp at h
          · exact ih _ _ _ h

/-- Claim C1: the polling loop of the evaluation methods returns the polled
payload exactly when its `status` is `COMPLETED` (so it never returns a
payload with any other status), raises the failure exception carrying the
field `error_message` of the payload exactly when `status` is `FAILED`, and on any
other status value simply polls again. -/
theorem polling_loop_status_behaviour :
    ∀ (timeout : Int) (polls : Nat → HttpResponse) (fuel n m : Nat) (p v : Json),
      (wait_go timeout polls fuel n = (.completed p, m) →
        p.lookup "status" = some (Json.str "COMPLETED")) ∧
      ((polls n).status_code = 200 →
        (polls n).body.lookup "status" = some (Json.str "COMPLETED") →
        wait_go timeout polls (fuel + 1) n = (.completed (polls n).body, n + 1)) ∧
      ((polls n).status_code = 200 →
        (polls n).body.lookup "status" = some (Json.str "FAILED") →
        wait_go timeout polls (fuel + 1) n =
          (.failedExn (failedMsg (polls n).body), n + 1)) ∧
      ((polls n).status_code = 200 →
        (polls n).body.lookup "status" = some v →
        jsonIsStr v "COMPLETED" = false → jsonIsStr v "FAILED" = false →
        wait_go timeout polls (fuel + 1) n = wait_go timeout polls fuel (n + 1)) := by
  intro timeout polls fuel n m p v
  refine ⟨fun h => wait_go_completed_status timeout polls fuel n p m h, ?_, ?_, ?_⟩
  · intro h200 hst
    simp [wait_go, get_status, h200, hst, jsonIsStr]
  · intro h200 hst
    simp [wait_go, get_status, h200, hst, jsonIsStr]
  · intro h200 hst hC hF
    simp [wait_go, get_status, h200, hst, hC, hF]

/-- The loop issues at most one status poll per unit of remaining fuel. -/
theorem wait_go_poll_count (timeout : Int) (polls : Nat → HttpResponse) :
    ∀ fuel n, (wait_go timeout polls fuel n).2 ≤ n + fuel := by
  intro fuel
  induction fuel with
  | zero =>
    intro n
    simp [wait_go]
  | succ fuel ih =>
    intro n
    simp only [wait_go]
    split
    · show n + 1 ≤ n + (fuel + 1)
      omega
    · split
      · show n + 1 ≤ n + (fuel + 1)
        omega
      · split
        · show n + 1 ≤ n + (fuel + 1)
          omega
        · split
          · show n + 1 ≤ n + (fuel + 1)
            omega
          · calc (wait_go timeout polls fuel (n + 1)).2 ≤ (n + 1) + fuel := ih (n + 1)
              _ = n + (fuel + 1) := by omega

/-- If every status observed while the loop condition holds is neither
`COMPLETED` nor `FAILED`, the loop exhausts its fuel and times out, having
polled once per allowed iteration. -/
theorem wait_go_all_pending (timeout : Int) (polls : Nat → HttpResponse) :
    ∀ fuel n,
      (∀ i, n ≤ i → i < n + fuel →
        (polls i).status_code = 200 ∧
        ∃ v, (polls i).body.lookup "status" = some v ∧
          jsonIsStr v "COMPLETED" = false ∧ jsonIsStr v "FAILED" = false) →
      wait_go timeout polls fuel n = (.timedOut (timeoutMsg timeout), n + fuel) := by
  intro fuel
  induction fuel with
  | zero =>
    intro n hp
    simp [wait_go]
  | succ fuel ih =>
    intro n hp
    obtain ⟨h200, v, hv, hC, hF⟩ := hp n (Nat.le_refl n) (by omega)
    rw [show wait_go timeout polls (fuel + 1) n = wait_go timeout polls fuel (n + 1) from
      by simp [wait_go, get_status, h200, hv, hC, hF]]
    rw [ih (n + 1) (fun i hi1 hi2 => hp i (by omega) (by omega))]
    have : n + 1 + fuel = n + (fuel + 1) := by omega
    rw [this]

/-- Claim C4: the polling loop always terminates: the number of polls is
bounded by the fuel the loop condition allows (at most `timeout` seconds,
one second of sleep per iteration), and when no `COMPLETED` or `FAILED`
status is observed before the condition fails, the method raises
`TimeoutError` reporting the timeout, after exactly `timeout.toNat`
polls. -/
theorem polling_always_terminates :
    ∀ (timeout : Int) (polls : Nat → HttpResponse),
      (wait_for_result timeout polls).2 ≤ timeout.toNat ∧
      (∀ fuel n, (wait_go timeout polls fuel n).2 ≤ n + fuel) ∧
      ((∀ i, i < timeout.toNat →
          (polls i).status_code = 200 ∧
          ∃ v, (polls i).body.lookup "status" = some v ∧
            jsonIsStr v "COMPLETED" = false ∧ jsonIsStr v "FAILED" = false) →
        wait_for_result timeout polls = (.timedOut (timeoutMsg timeout), timeout.toNat)) := by
  intro timeout polls
  refine ⟨?_, wait_go_poll_count timeout polls, ?_⟩
  · have h := wait_go_poll_count timeout polls timeout.toNat 0
    simpa [wait_for_result] using h
  · intro hp
    have h := wait_go_all_pending timeout polls timeout.toNat 0
      (fun i hi1 hi2 => hp i (by omega))
    simpa [wait_for_result] using h

/-- With a non-positive timeout the loop condition fails before the first
iteration: the waiting branch times out without a single status poll. -/
theorem submit_and_wait_nonpos (b : String) (req : HttpRequest) (t : Int) (env : Env)
    (idv : Json) (ht : t ≤ 0) (h200 : env.createResp.status_code = 200)
    (hid : env.createResp.body.lookup "evaluation_id" = some idv) :
    submit_and_wait b req true t env = (.timeoutError (timeoutMsg t), [req]) := by
  have h0 : t.toNat = 0 := Int.toNat_of_nonpos ht
  unfold submit_and_wait wait_for_result
  simp [h200, hid, h0, wait_go, outcomeToResult]

/-- Claim C8: calling any evaluation method with `wait_for_result=True` and
a timeout at most 0 raises `TimeoutError` immediately after the successful
creation POST: the polling loop body never runs, no status poll is issued
(the request trace is just the creation POST), and this holds whatever the
poll responses would have been — even if the evaluation is already
completed. -/
theorem nonpositive_timeout_polls_never :
    ∀ (base_url text judge_model_id reference_info generated_text source_info
        user_query ai_response original_text summary_A summary_B : String)
      (provide_reasoning : Bool) (timeout : Int) (env : Env) (idv : Json),
      timeout ≤ 0 →
      env.createResp.status_code = 200 →
      env.createResp.body.lookup "evaluation_id" = some idv →
      wait_for_result timeout env.polls = (.timedOut (timeoutMsg timeout), 0) ∧
      evaluate_toxicity base_url text judge_model_id provide_reasoning true timeout env =
        (.timeoutError (timeoutMsg timeout),
          [toxicity_request base_url text judge_model_id provide_reasoning]) ∧
      evaluate_factual_accuracy base_url text reference_info judge_model_id true timeout
        env =
        (.timeoutError (timeoutMsg timeout),
          [factual_accuracy_request base_url text reference_info judge_model_id]) ∧
      detect_hallucinations base_url generated_text source_info judge_model_id true
        timeout env =
        (.timeoutError (timeoutMsg timeout),
          [hallucination_request base_url generated_text source_info judge_model_id]) ∧
      evaluate_conversational_ai_response base_url user_query ai_response judge_model_id
        true timeout env =
        (.timeoutError (timeoutMsg timeout),
          [conversational_request base_url user_query ai_response judge_model_id]) ∧
      compare_summarizations base_url original_text summary_A summary_B judge_model_id
        true timeout env =
        (.timeoutError (timeoutMsg timeout),
          [summarization_request base_url original_text summary_A summary_B
            judge_model_id]) := by
  intro base_url text judge_model_id reference_info generated_text source_info
    user_query ai_response original_text summary_A summary_B
    provide_reasoning timeout env idv ht h200 hid
  have h0 : timeout.toNat = 0 := Int.toNat_of_nonpos ht
  refine ⟨?_, submit_and_wait_nonpos _ _ _ _ _ ht h200 hid,
    submit_and_wait_nonpos _ _ _ _ _ ht h200 hid,
    submit_and_wait_nonpos _ _ _ _ _ ht h200 hid,
    submit_and_wait_nonpos _ _ _ _ _ ht h200 hid,
    submit_and_wait_nonpos _ _ _ _ _ ht h200 hid⟩
  simp [wait_for_result, h0, wait_go]

/-- Concrete instantiation of the polling-loop behaviour theorem: a
COMPLETED poll is returned, a FAILED poll raises with the error message, a
PENDING poll loops again, and the returned payload has status COMPLETED. -/
theorem polling_loop_status_behaviour_witness :
    (Json.obj [("status", Json.str "COMPLETED")]).lookup "status" =
      some (Json.str "COMPLETED") ∧
    wait_go 60 (fun _ => ⟨200, "ok", Json.obj [("status", Json.str "COMPLETED")]⟩) 1 0 =
      (.completed (Json.obj [("status", Json.str "COMPLETED")]), 1) ∧
    wait_go 60 (fun _ => ⟨200, "ok",
        Json.obj [("status", Json.str "FAILED"), ("error_message", Json.str "boom")]⟩) 1 0 =
      (.failedExn "Evaluation failed: boom", 1) ∧
    wait_go 60 (fun _ => ⟨200, "ok", Json.obj [("status", Json.str "PENDING")]⟩) 3 0 =
      wait_go 60 (fun _ => ⟨200, "ok", Json.obj [("status", Json.str "PENDING")]⟩) 2 1 := by
  refine ⟨?_, ?_, ?_, ?_⟩
  · exact (polling_loop_status_behaviour 60
      (fun _ => ⟨200, "ok", Json.obj [("status", Json.str "COMPLETED")]⟩) 1 0 1
      (Json.obj [("status", Json.str "COMPLETED")]) Json.null).1 rfl
  · exact (polling_loop_status_behaviour 60
      (fun _ => ⟨200, "ok", Json.obj [("status", Json.str "COMPLETED")]⟩) 0 0 0
      Json.null Json.null).2.1 rfl rfl
  · exact (polling_loop_status_behaviour 60
      (fun _ => ⟨200, "ok",
        Json.obj [("status", Json.str "FAILED"), ("error_message", Json.str "boom")]⟩)
      0 0 0 Json.null Json.null).2.2.1 rfl rfl
  · exact (polling_loop_status_behaviour 60
      (fun _ => ⟨200, "ok", Json.obj [("status", Json.str "PENDING")]⟩) 2 0 0
      Json.null (Json.str "PENDING")).2.2.2 rfl rfl rfl rfl

/-- Concrete instantiation of the create/poll pattern theorem: with a 200
creation response carrying an evaluation id and `wait_for_result=False`,
`evaluate_toxicity` returns the creation payload after its single POST. -/
theorem create_poll_pattern_witness :
    evaluate_toxicity "http://localhost:8000/v1" "hello" "m" true false 60
      ⟨⟨200, "ok", Json.obj [("evaluation_id", Json.str "eid")]⟩,
        fun _ => ⟨200, "ok", Json.obj [("status", Json.str "COMPLETED")]⟩⟩ =
      (.ok (Json.obj [("evaluation_id", Json.str "eid")]),
        [toxicity_request "http://localhost:8000/v1" "hello" "m" true]) := by
  exact (create_poll_pattern "http://localhost:8000/v1" "hello" "m" "r" "g" "s" "u" "a"
    "o" "A" "B" true false 60
    ⟨⟨200, "ok", Json.obj [("evaluation_id", Json.str "eid")]⟩,
      fun _ => ⟨200, "ok", Json.obj [("status", Json.str "COMPLETED")]⟩⟩
    (Json.str "eid")).1.2.1 rfl rfl

/-- Concrete instantiation of the HTTP error-propagation theorem: a 500
response makes `get_status` and `evaluate_toxicity` raise the formatted
error. -/
theorem http_status_error_propagation_witness :
    get_status ⟨500, "oops", Json.null⟩ = .error "Error: 500 - oops" ∧
    evaluate_toxicity "b" "t" "m" true true 60
      ⟨⟨500, "oops", Json.null⟩, fun _ => ⟨200, "x", Json.null⟩⟩ =
      (.exn "Error: 500 - oops", [toxicity_request "b" "t" "m" true]) := by
  refine ⟨?_, ?_⟩
  · exact (http_status_error_propagation ⟨500, "oops", Json.null⟩ "b" "t" "m" "r" "g"
      "s" "u" "a" "o" "A" "B" "tn" "sm" "up" none none none none true true 60
      ⟨⟨500, "oops", Json.null⟩, fun _ => ⟨200, "x", Json.null⟩⟩
      (fun _ => ⟨200, "x", Json.null⟩) 0 0).2.1 (by decide)
  · exact (http_status_error_propagation ⟨500, "oops", Json.null⟩ "b" "t" "m" "r" "g"
      "s" "u" "a" "o" "A" "B" "tn" "sm" "up" none none none none true true 60
      ⟨⟨500, "oops", Json.null⟩, fun _ => ⟨200, "x", Json.null⟩⟩
      (fun _ => ⟨200, "x", Json.null⟩) 0 0).2.2.2.2.1 (by decide)

/-- Concrete instantiation of the termination theorem: two permanently
pending polls exhaust a timeout of 2 and raise the timeout error. -/
theorem polling_always_terminates_witness :
    wait_for_result 2 (fun _ => ⟨200, "ok", Json.obj [("status", Json.str "PENDING")]⟩) =
      (.timedOut (timeoutMsg 2), 2) ∧
    (wait_for_result 2
      (fun _ => ⟨200, "ok", Json.obj [("status", Json.str "PENDING")]⟩)).2 ≤ 2 := by
  refine ⟨?_, ?_⟩
  · exact (polling_always_terminates 2
      (fun _ => ⟨200, "ok", Json.obj [("status", Json.str "PENDING")]⟩)).2.2
      (fun i hi => ⟨rfl, Json.str "PENDING", rfl, rfl, rfl⟩)
  · exact (polling_always_terminates 2
      (fun _ => ⟨200, "ok", Json.obj [("status", Json.str "PENDING")]⟩)).1

/-- Concrete instantiation of the non-positive timeout theorem: with
timeout 0 and polls that would report COMPLETED, `evaluate_toxicity`
still times out after only the creation POST. -/
theorem nonpositive_timeout_polls_never_witness :
    evaluate_toxicity "b" "t" "m" true true 0
      ⟨⟨200, "ok", Json.obj [("evaluation_id", Json.str "eid")]⟩,
        fun _ => ⟨200, "ok", Json.obj [("status", Json.str "COMPLETED")]⟩⟩ =
      (.timeoutError (timeoutMsg 0), [toxicity_request "b" "t" "m" true]) := by
  exact (nonpositive_timeout_polls_never "b" "t" "m" "r" "g" "s" "u" "a" "o" "A" "B"
    true 0
    ⟨⟨200, "ok", Json.obj [("evaluation_id", Json.str "eid")]⟩,
      fun _ => ⟨200, "ok", Json.obj [("status", Json.str "COMPLETED")]⟩⟩
    (Json.str "eid") (by decide) rfl rfl).2.1
